import Mathlib

/-!
Verification of `django_elasticsearch/models.py`: the signal-callback glue
that mirrors model lifecycle events (save, delete, migrate) into an
Elasticsearch index.

The Python module is shallowly embedded as follows.  Every externally
observable action a callback performs (the connectivity probe via
`requests.get`, the delegated manager calls `do_index`, `delete`,
`create_index`, `reindex_all`, the `logger.error` call, and the parent
`Model.save` / `Model.delete` database operations) is recorded as an
`Event` in a trace.  The outcome of each external call (did it raise, and
which exception) is an input to the embedding, since those calls live in
collaborators outside this file.  A callback then returns the trace of
events it produced together with `Except PyExc Unit`: `.ok ()` for a
normal return, `.error e` for an exception `e` propagating out.
-/

/-- Python exceptions relevant to this module.  The first three are exactly
the ones named in the `except` clauses of the callbacks
(`requests.exceptions.ConnectionError`, `requests.exceptions.Timeout`,
`elasticsearch.exceptions.ConnectionError`); `valueError` is raised by
`_raise_no_db_operation`; `otherError` stands for any other exception. -/
inductive PyExc where
  | reqConnectionError
  | reqTimeout
  | esConnectionError
  | valueError
  | otherError
deriving DecidableEq, Repr

/-- Is the exception one of the three caught by the
`except (requests.exceptions.ConnectionError, requests.exceptions.Timeout,
ElasticConnectionError)` clauses? -/
def caughtByEsCallbacks : PyExc → Bool
  | .reqConnectionError => true
  | .reqTimeout => true
  | .esConnectionError => true
  | _ => false

/-- Observable actions of the module, recorded in order of occurrence. -/
inductive Event where
  | probe (url : String) (timeout : Option Nat)
  | doIndex
  | esDelete
  | createIndex (model : String)
  | reindexAll (model : String)
  | logError
  | dbSave
  | dbDelete
deriving DecidableEq, Repr

/-- The Django settings object, restricted to the attributes this module
reads.  `elasticsearch_url` models `settings.ELASTICSEARCH_URL`, which the
code accesses directly (so it must be present).
`elasticsearch_max_timeout` models `settings.ELASTICSEARCH_MAX_TIMEOUT`
accessed through `getattr(..., None)`: `none` means the attribute is
absent (yielding Python `None`), `some n` a numeric value.
`elasticsearch_auto_index` models `settings.ELASTICSEARCH_AUTO_INDEX`
accessed through `getattr(..., False)`: `none` means absent, `some b` a
value whose truthiness is `b`. -/
structure Settings where
  elasticsearch_url : String
  elasticsearch_max_timeout : Option Nat
  elasticsearch_auto_index : Option Bool
deriving DecidableEq, Repr

/-- `getattr(settings, 'ELASTICSEARCH_MAX_TIMEOUT', None)`. -/
def Settings.maxTimeoutEffective (s : Settings) : Option Nat :=
  s.elasticsearch_max_timeout

/-- Truthiness of `getattr(settings, 'ELASTICSEARCH_AUTO_INDEX', False)`. -/
def Settings.autoIndexEffective (s : Settings) : Bool :=
  s.elasticsearch_auto_index.getD false

/-- Shared tail of every `try` block in the three callbacks: the trace
accumulated so far when exception `e` is raised, followed by the
`except` clause.  A caught exception appends the `logger.error` call and
the callback returns normally; an uncaught one propagates. -/
def handleExc (e : PyExc) (tr : List Event) : List Event × Except PyExc Unit :=
  if caughtByEsCallbacks e then (tr ++ [Event.logError], Except.ok ())
  else (tr, Except.error e)

/-- `es_save_callback(sender, instance, **kwargs)`.
`senderIsEsIndexable` is `issubclass(sender, EsIndexable)`;
`probeOutcome` and `doIndexOutcome` give the exception (if any) raised by
`requests.get(settings.ELASTICSEARCH_URL, timeout=...)` and by
`instance.es.do_index()` respectively. -/
def es_save_callback (senderIsEsIndexable : Bool) (s : Settings)
    (probeOutcome : Option PyExc) (doIndexOutcome : Option PyExc) :
    List Event × Except PyExc Unit :=
  if !senderIsEsIndexable then ([], Except.ok ())
  else
    let probeEv := Event.probe s.elasticsearch_url s.maxTimeoutEffective
    match probeOutcome with
    | some e => handleExc e [probeEv]
    | none =>
      match doIndexOutcome with
      | some e => handleExc e [probeEv, Event.doIndex]
      | none => ([probeEv, Event.doIndex], Except.ok ())

/-- `es_delete_callback(sender, instance, **kwargs)`; as `es_save_callback`
but the delegated call is `instance.es.delete()`. -/
def es_delete_callback (senderIsEsIndexable : Bool) (s : Settings)
    (probeOutcome : Option PyExc) (esDeleteOutcome : Option PyExc) :
    List Event × Except PyExc Unit :=
  if !senderIsEsIndexable then ([], Except.ok ())
  else
    let probeEv := Event.probe s.elasticsearch_url s.maxTimeoutEffective
    match probeOutcome with
    | some e => handleExc e [probeEv]
    | none =>
      match esDeleteOutcome with
      | some e => handleExc e [probeEv, Event.esDelete]
      | none => ([probeEv, Event.esDelete], Except.ok ())

/-- A Django model class as seen by `es_syncdb_callback`: its name and
whether it is a subclass of `EsIndexable`. -/
structure PyModel where
  name : String
  isEsIndexable : Bool
deriving DecidableEq, Repr

/-- Outcomes of the three external calls made for one model inside the
`for` loop of `es_syncdb_callback`: the probe, `model.es.create_index()`
and `model.es.reindex_all()`.  `none` means the call returns normally. -/
structure ModelOutcome where
  probe : Option PyExc
  createIndex : Option PyExc
  reindexAll : Option PyExc

/-- Body of the `for model in models` loop of `es_syncdb_callback` for a
single `EsIndexable` model: probe, `create_index`, `reindex_all`, each
aborting the `try` block if it raises. -/
def syncdbProcessModel (s : Settings) (m : PyModel) (o : ModelOutcome) :
    List Event × Except PyExc Unit :=
  let probeEv := Event.probe s.elasticsearch_url s.maxTimeoutEffective
  match o.probe with
  | some e => handleExc e [probeEv]
  | none =>
    match o.createIndex with
    | some e => handleExc e [probeEv, Event.createIndex m.name]
    | none =>
      match o.reindexAll with
      | some e =>
          handleExc e [probeEv, Event.createIndex m.name, Event.reindexAll m.name]
      | none =>
          ([probeEv, Event.createIndex m.name, Event.reindexAll m.name],
           Except.ok ())

/-- The `for model in models` loop of `es_syncdb_callback`.  A model that
is not an `EsIndexable` subclass is skipped; an uncaught exception from a
model's `try` block propagates, aborting the rest of the loop. -/
def syncdbLoop (s : Settings) (oracle : PyModel → ModelOutcome) :
    List PyModel → List Event × Except PyExc Unit
  | [] => ([], Except.ok ())
  | m :: rest =>
    if m.isEsIndexable then
      match syncdbProcessModel s m (oracle m) with
      | (tr, Except.error e) => (tr, Except.error e)
      | (tr, Except.ok ()) =>
        let (tr2, res2) := syncdbLoop s oracle rest
        (tr ++ tr2, res2)
    else syncdbLoop s oracle rest

/-- Python `int(c)` for a single character: its digit value, or a
`ValueError` (`none`) when the character is not a decimal digit. -/
def pyIntOfDigitChar (c : Char) : Option Nat :=
  if c.isDigit then some (c.toNat - 48) else none

/-- `es_syncdb_callback(sender, app=None, created_models=[], **kwargs)`.
`djangoVersion` is the string returned by `django.get_version()`;
`senderModels` is `sender.get_models()`.  The callback reads only the
character at index 2 of the version string: `int(get_version()[2]) > 6`
selects `sender.get_models()`, otherwise `created_models` is used (its
default in the source is the empty list).  A missing index-2 character
(IndexError) or a non-digit one (ValueError from `int`) raises an
exception not caught anywhere in the function. -/
def es_syncdb_callback (djangoVersion : String) (senderModels : List PyModel)
    (created_models : List PyModel) (s : Settings)
    (oracle : PyModel → ModelOutcome) : List Event × Except PyExc Unit :=
  match (djangoVersion.toList.get? 2).bind pyIntOfDigitChar with
  | none => ([], Except.error PyExc.otherError)
  | some d =>
    let models := if d > 6 then senderModels else created_models
    syncdbLoop s oracle models

/-- `EsIndexable._raise_no_db_operation(self)`.  `isEsDeserialized`
models `getattr(self, '_is_es_deserialized', False)`: `none` when the
attribute is absent, `some b` a value of truthiness `b`. -/
def raise_no_db_operation (isEsDeserialized : Option Bool) : Option PyExc :=
  if isEsDeserialized.getD false then some PyExc.valueError else none

/-- `EsIndexable.save(self, *args, **kwargs)`: `_raise_no_db_operation`
followed, if it does not raise, by `super().save(...)` (the database
write, recorded as `Event.dbSave`). -/
def EsIndexable_save (isEsDeserialized : Option Bool) :
    List Event × Except PyExc Unit :=
  match raise_no_db_operation isEsDeserialized with
  | some e => ([], Except.error e)
  | none => ([Event.dbSave], Except.ok ())

/-- `EsIndexable.delete(self, *args, **kwargs)`: `_raise_no_db_operation`
followed, if it does not raise, by `super().delete(...)` (the database
delete, recorded as `Event.dbDelete`). -/
def EsIndexable_delete (isEsDeserialized : Option Bool) :
    List Event × Except PyExc Unit :=
  match raise_no_db_operation isEsDeserialized with
  | some e => ([], Except.error e)
  | none => ([Event.dbDelete], Except.ok ())

/-- The handlers this module can register on Django signals. -/
inductive Handler where
  | save
  | esDelete
  | syncdb
deriving DecidableEq, Repr

/-- Module-level registration code: if
`getattr(settings, 'ELASTICSEARCH_AUTO_INDEX', False)` is truthy, connect
`es_save_callback` to `post_save`, `es_delete_callback` to `post_delete`
and `es_syncdb_callback` to `post_migrate`; otherwise connect nothing. -/
def connectedHandlers (s : Settings) : List Handler :=
  if s.autoIndexEffective then [Handler.save, Handler.esDelete, Handler.syncdb]
  else []

/-- Trace of the `for` loop of `es_syncdb_callback` when every external
call succeeds: per `EsIndexable` model, one probe, one `create_index`
and one `reindex_all`, in that order; nothing for other models. -/
def syncdbExpectedTrace (s : Settings) : List PyModel → List Event
  | [] => []
  | m :: rest =>
    (if m.isEsIndexable then
       [Event.probe s.elasticsearch_url s.maxTimeoutEffective,
        Event.createIndex m.name, Event.reindexAll m.name]
     else []) ++ syncdbExpectedTrace s rest

/-- Every probe event in a trace carries the configured URL and timeout. -/
def probesVerbatim (s : Settings) (tr : List Event) : Prop :=
  ∀ u t, Event.probe u t ∈ tr →
    u = s.elasticsearch_url ∧ t = s.elasticsearch_max_timeout

lemma probesVerbatim_handleExc (s : Settings) (e : PyExc) (tr : List Event)
    (h : probesVerbatim s tr) : probesVerbatim s (handleExc e tr).1 := by
  intro u t hm
  unfold handleExc at hm
  split at hm
  · simp only [List.mem_append, List.mem_singleton] at hm
    rcases hm with hm | hm
    · exact h u t hm
    · cases hm
  · exact h u t hm

lemma probesVerbatim_processModel (s : Settings) (m : PyModel)
    (o : ModelOutcome) : probesVerbatim s (syncdbProcessModel s m o).1 := by
  unfold syncdbProcessModel
  rcases o.probe with _ | e
  · rcases o.createIndex with _ | e
    · rcases o.reindexAll with _ | e
      · intro u t hm
        simp only [List.mem_cons, List.not_mem_nil, or_false,
          Event.probe.injEq, reduceCtorEq, Settings.maxTimeoutEffective] at hm
        exact hm
      · refine probesVerbatim_handleExc s e _ ?_
        intro u t hm
        simp only [List.mem_cons, List.not_mem_nil, or_false,
          Event.probe.injEq, reduceCtorEq, Settings.maxTimeoutEffective] at hm
        exact hm
    · refine probesVerbatim_handleExc s e _ ?_
      intro u t hm
      simp only [List.mem_cons, List.not_mem_nil, or_false,
        Event.probe.injEq, reduceCtorEq, Settings.maxTimeoutEffective] at hm
      exact hm
  · refine probesVerbatim_handleExc s e _ ?_
    intro u t hm
    simp only [List.mem_cons, List.not_mem_nil, or_false,
      Event.probe.injEq, Settings.maxTimeoutEffective] at hm
    exact hm

lemma probesVerbatim_syncdbLoop (s : Settings) (oracle : PyModel → ModelOutcome)
    (ms : List PyModel) : probesVerbatim s (syncdbLoop s oracle ms).1 := by
  induction ms with
  | nil => intro u t hm; cases hm
  | cons m rest ih =>
    unfold syncdbLoop
    by_cases hidx : m.isEsIndexable
    · simp only [hidx, if_true]
      have hp := probesVerbatim_processModel s m (oracle m)
      rcases hpm : syncdbProcessModel s m (oracle m) with ⟨tr, res⟩
      rw [hpm] at hp
      rcases res with e | u
      · exact hp
      · rcases hloop : syncdbLoop s oracle rest with ⟨tr2, res2⟩
        rw [hloop] at ih
        intro u t hm
        simp only [List.mem_append] at hm
        rcases hm with hm | hm
        · exact hp u t hm
        · exact ih u t hm
    · simp only [hidx, if_false]
      exact ih

/-- Claim C1: for a `post_save` signal whose sender is an `EsIndexable`
subclass, when the connectivity probe succeeds, `es_save_callback` calls
`instance.es.do_index()` exactly once, whatever that call then does. -/
theorem C1_save_callback_indexes_exactly_once (s : Settings)
    (doIndexOutcome : Option PyExc) :
    ((es_save_callback true s none doIndexOutcome).1.count Event.doIndex) = 1 := by
  rcases doIndexOutcome with _ | e
  · simp [es_save_callback, List.count_cons]
  · by_cases hc : caughtByEsCallbacks e
    · simp [es_save_callback, handleExc, hc, List.count_cons, List.count_append]
    · simp [es_save_callback, handleExc, hc, List.count_cons]

/-- Claim C3: for a `post_delete` signal whose sender is an `EsIndexable`
subclass, when the connectivity probe succeeds, `es_delete_callback` calls
`instance.es.delete()` exactly once, whatever that call then does. -/
theorem C3_delete_callback_deletes_exactly_once (s : Settings)
    (esDeleteOutcome : Option PyExc) :
    ((es_delete_callback true s none esDeleteOutcome).1.count Event.esDelete) = 1 := by
  rcases esDeleteOutcome with _ | e
  · simp [es_delete_callback, List.count_cons]
  · by_cases hc : caughtByEsCallbacks e
    · simp [es_delete_callback, handleExc, hc, List.count_cons, List.count_append]
    · simp [es_delete_callback, handleExc, hc, List.count_cons]

/-- Claim C5: per lifecycle event, `es_save_callback` attempts `do_index`
at most once and `es_delete_callback` attempts `delete` at most once, for
every sender kind, settings value and outcome of the external calls:
there is no retry and no batching across events. -/
theorem C5_at_most_one_attempt_per_event (b : Bool) (s : Settings)
    (p r : Option PyExc) :
    ((es_save_callback b s p r).1.count Event.doIndex ≤ 1) ∧
    ((es_delete_callback b s p r).1.count Event.esDelete ≤ 1) := by
  constructor
  · rcases b with _ | _
    · simp [es_save_callback]
    · rcases p with _ | e
      · rcases r with _ | e
        · simp [es_save_callback, List.count_cons]
        · by_cases hc : caughtByEsCallbacks e <;>
            simp [es_save_callback, handleExc, hc, List.count_cons,
              List.count_append]
      · by_cases hc : caughtByEsCallbacks e <;>
          simp [es_save_callback, handleExc, hc, List.count_cons,
            List.count_append]
  · rcases b with _ | _
    · simp [es_delete_callback]
    · rcases p with _ | e
      · rcases r with _ | e
        · simp [es_delete_callback, List.count_cons]
        · by_cases hc : caughtByEsCallbacks e <;>
            simp [es_delete_callback, handleExc, hc, List.count_cons,
              List.count_append]
      · by_cases hc : caughtByEsCallbacks e <;>
          simp [es_delete_callback, handleExc, hc, List.count_cons,
            List.count_append]

/-- Claim C8: for a sender class that is not an `EsIndexable` subclass,
`es_save_callback` and `es_delete_callback` return immediately: empty
trace (no probe, no index operation, no log), normal return. -/
theorem C8_non_indexable_sender_is_noop (s : Settings) (p r : Option PyExc) :
    es_save_callback false s p r = ([], Except.ok ()) ∧
    es_delete_callback false s p r = ([], Except.ok ()) := by
  exact ⟨rfl, rfl⟩

lemma syncdbProcessModel_ok_of_caught (s : Settings) (m : PyModel)
    (o : ModelOutcome)
    (hp : o.probe.all caughtByEsCallbacks = true)
    (hci : o.createIndex.all caughtByEsCallbacks = true)
    (hra : o.reindexAll.all caughtByEsCallbacks = true) :
    (syncdbProcessModel s m o).2 = Except.ok () := by
  unfold syncdbProcessModel
  rcases hop : o.probe with _ | e
  · rcases hoc : o.createIndex with _ | e
    · rcases hor : o.reindexAll with _ | e
      · rfl
      · rw [hor] at hra
        simp only [Option.all_some] at hra
        simp [handleExc, hra]
    · rw [hoc] at hci
      simp only [Option.all_some] at hci
      simp [handleExc, hci]
  · rw [hop] at hp
    simp only [Option.all_some] at hp
    simp [handleExc, hp]

lemma syncdbLoop_ok_of_caught (s : Settings) (oracle : PyModel → ModelOutcome)
    (ms : List PyModel)
    (h : ∀ m ∈ ms, (oracle m).probe.all caughtByEsCallbacks = true ∧
      (oracle m).createIndex.all caughtByEsCallbacks = true ∧
      (oracle m).reindexAll.all caughtByEsCallbacks = true) :
    (syncdbLoop s oracle ms).2 = Except.ok () := by
  induction ms with
  | nil => rfl
  | cons m rest ih =>
    have hm := h m (List.mem_cons_self m rest)
    have hrest := fun m' hm' => h m' (List.mem_cons_of_mem m hm')
    unfold syncdbLoop
    by_cases hidx : m.isEsIndexable
    · simp only [hidx, if_true]
      have hok := syncdbProcessModel_ok_of_caught s m (oracle m)
        hm.1 hm.2.1 hm.2.2
      rcases hpm : syncdbProcessModel s m (oracle m) with ⟨tr, res⟩
      rw [hpm] at hok
      cases res with
      | error e => cases hok
      | ok u =>
        cases u
        rcases hloop : syncdbLoop s oracle rest with ⟨tr2, res2⟩
        have := ih hrest
        rw [hloop] at this
        simpa using this
    · simp only [hidx, if_false]
      exact ih hrest

/-- Claim C2: when the probe or the delegated index operation raises one
of `requests.exceptions.ConnectionError`, `requests.exceptions.Timeout`
or elasticsearch `ConnectionError`, each callback catches it, logs an
error, and returns normally; the operation for that event is dropped (it
appears at most once in the trace and is never reattempted).  The final
conjunct shows `es_syncdb_callback`'s loop as a whole returns normally
when every raised exception is of that family. -/
theorem C2_connectivity_errors_caught_logged_dropped (s : Settings)
    (e : PyExc) (hc : caughtByEsCallbacks e = true) :
    (∀ r, es_save_callback true s (some e) r =
      ([Event.probe s.elasticsearch_url s.maxTimeoutEffective,
        Event.logError], Except.ok ())) ∧
    (es_save_callback true s none (some e) =
      ([Event.probe s.elasticsearch_url s.maxTimeoutEffective, Event.doIndex,
        Event.logError], Except.ok ())) ∧
    (∀ r, es_delete_callback true s (some e) r =
      ([Event.probe s.elasticsearch_url s.maxTimeoutEffective,
        Event.logError], Except.ok ())) ∧
    (es_delete_callback true s none (some e) =
      ([Event.probe s.elasticsearch_url s.maxTimeoutEffective, Event.esDelete,
        Event.logError], Except.ok ())) ∧
    (∀ m : PyModel, syncdbProcessModel s m ⟨some e, none, none⟩ =
      ([Event.probe s.elasticsearch_url s.maxTimeoutEffective,
        Event.logError], Except.ok ())) ∧
    (∀ m : PyModel, syncdbProcessModel s m ⟨none, some e, none⟩ =
      ([Event.probe s.elasticsearch_url s.maxTimeoutEffective,
        Event.createIndex m.name, Event.logError], Except.ok ())) ∧
    (∀ m : PyModel, syncdbProcessModel s m ⟨none, none, some e⟩ =
      ([Event.probe s.elasticsearch_url s.maxTimeoutEffective,
        Event.createIndex m.name, Event.reindexAll m.name,
        Event.logError], Except.ok ())) ∧
    (∀ (oracle : PyModel → ModelOutcome) (ms : List PyModel),
      (∀ m ∈ ms, (oracle m).probe.all caughtByEsCallbacks = true ∧
        (oracle m).createIndex.all caughtByEsCallbacks = true ∧
        (oracle m).reindexAll.all caughtByEsCallbacks = true) →
      (syncdbLoop s oracle ms).2 = Except.ok ()) := by
  refine ⟨?_, ?_, ?_, ?_, ?_, ?_, ?_, ?_⟩
  · intro r
    simp [es_save_callback, handleExc, hc]
  · simp [es_save_callback, handleExc, hc]
  · intro r
    simp [es_delete_callback, handleExc, hc]
  · simp [es_delete_callback, handleExc, hc]
  · intro m
    simp [syncdbProcessModel, handleExc, hc]
  · intro m
    simp [syncdbProcessModel, handleExc, hc]
  · intro m
    simp [syncdbProcessModel, handleExc, hc]
  · exact syncdbLoop_ok_of_caught s

/-- Witness for C2 at a concrete setting and the `requests` timeout
exception. -/
theorem C2_witness :
    caughtByEsCallbacks PyExc.reqTimeout = true ∧
    es_save_callback true ⟨"http://localhost:9200", none, none⟩
      (some PyExc.reqTimeout) none =
      ([Event.probe "http://localhost:9200" none, Event.logError],
       Except.ok ()) :=
  ⟨by decide,
   (C2_connectivity_errors_caught_logged_dropped
     ⟨"http://localhost:9200", none, none⟩ PyExc.reqTimeout (by decide)).1 none⟩

lemma syncdbLoop_allOk (s : Settings) (ms : List PyModel) :
    syncdbLoop s (fun _ => ⟨none, none, none⟩) ms =
      (syncdbExpectedTrace s ms, Except.ok ()) := by
  induction ms with
  | nil => rfl
  | cons m rest ih =>
    unfold syncdbLoop syncdbExpectedTrace
    by_cases hidx : m.isEsIndexable
    · simp only [hidx, if_true]
      rw [ih]
      rfl
    · simp only [hidx, if_false, ih, Bool.false_eq_true, List.nil_append]

/-- Claim C4: when every external call succeeds, `es_syncdb_callback`
performs, for each `EsIndexable` model of the selected list, one probe
followed by `model.es.create_index()` and then `model.es.reindex_all()`,
once per model and in list order, and nothing for other models; this
holds both on the `sender.get_models()` branch (version digit `7`) and
on the `created_models` branch (version digit `5`). -/
theorem C4_syncdb_creates_then_reindexes_each_indexable_model
    (s : Settings) (models created : List PyModel) :
    es_syncdb_callback "1.7" models created s (fun _ => ⟨none, none, none⟩) =
      (syncdbExpectedTrace s models, Except.ok ()) ∧
    es_syncdb_callback "1.5" models created s (fun _ => ⟨none, none, none⟩) =
      (syncdbExpectedTrace s created, Except.ok ()) := by
  have h7 : (("1.7".toList.get? 2).bind pyIntOfDigitChar) = some 7 := by decide
  have h5 : (("1.5".toList.get? 2).bind pyIntOfDigitChar) = some 5 := by decide
  constructor
  · unfold es_syncdb_callback
    rw [h7]
    simpa using syncdbLoop_allOk s models
  · unfold es_syncdb_callback
    rw [h5]
    simpa using syncdbLoop_allOk s created

/-- Claim C6: the module-level registration connects exactly the three
handlers when the effective `ELASTICSEARCH_AUTO_INDEX` value is truthy,
connects none when it is falsy, and an absent setting is falsy (its
`getattr` default is `False`), so nothing is ever triggered then. -/
theorem C6_handlers_connected_iff_auto_index (s : Settings) :
    (connectedHandlers s = [Handler.save, Handler.esDelete, Handler.syncdb] ↔
      s.autoIndexEffective = true) ∧
    (connectedHandlers s = [] ↔ s.autoIndexEffective = false) ∧
    (s.elasticsearch_auto_index = none →
      s.autoIndexEffective = false ∧ connectedHandlers s = []) := by
  rcases hs : s.elasticsearch_auto_index with _ | b
  · simp [connectedHandlers, Settings.autoIndexEffective, hs]
  · cases b <;> simp [connectedHandlers, Settings.autoIndexEffective, hs]

/-- Witness for C6: a truthy setting connects all three handlers and an
absent one connects none. -/
theorem C6_witness :
    connectedHandlers ⟨"http://localhost:9200", none, some true⟩ =
      [Handler.save, Handler.esDelete, Handler.syncdb] ∧
    connectedHandlers ⟨"http://localhost:9200", none, none⟩ = [] :=
  ⟨(C6_handlers_connected_iff_auto_index
      ⟨"http://localhost:9200", none, some true⟩).1.mpr rfl,
   ((C6_handlers_connected_iff_auto_index
      ⟨"http://localhost:9200", none, none⟩).2.2 rfl).2⟩

lemma probesVerbatim_save (b : Bool) (s : Settings) (p r : Option PyExc) :
    probesVerbatim s (es_save_callback b s p r).1 := by
  cases b
  · intro u t hm
    cases hm
  · unfold es_save_callback
    rcases p with _ | e
    · rcases r with _ | e
      · intro u t hm
        simp only [Bool.not_true, Bool.false_eq_true, if_false,
          List.mem_cons, List.not_mem_nil, or_false, Event.probe.injEq,
          reduceCtorEq, Settings.maxTimeoutEffective] at hm
        simpa using hm
      · refine probesVerbatim_handleExc s e _ ?_
        intro u t hm
        simp only [List.mem_cons, List.not_mem_nil, or_false,
          Event.probe.injEq, reduceCtorEq, Settings.maxTimeoutEffective] at hm
        simpa using hm
    · refine probesVerbatim_handleExc s e _ ?_
      intro u t hm
      simp only [List.mem_cons, List.not_mem_nil, or_false,
        Event.probe.injEq, Settings.maxTimeoutEffective] at hm
      simpa using hm

lemma probesVerbatim_deleteCb (b : Bool) (s : Settings) (p r : Option PyExc) :
    probesVerbatim s (es_delete_callback b s p r).1 := by
  cases b
  · intro u t hm
    cases hm
  · unfold es_delete_callback
    rcases p with _ | e
    · rcases r with _ | e
      · intro u t hm
        simp only [Bool.not_true, Bool.false_eq_true, if_false,
          List.mem_cons, List.not_mem_nil, or_false, Event.probe.injEq,
          reduceCtorEq, Settings.maxTimeoutEffective] at hm
        simpa using hm
      · refine probesVerbatim_handleExc s e _ ?_
        intro u t hm
        simp only [List.mem_cons, List.not_mem_nil, or_false,
          Event.probe.injEq, reduceCtorEq, Settings.maxTimeoutEffective] at hm
        simpa using hm
    · refine probesVerbatim_handleExc s e _ ?_
      intro u t hm
      simp only [List.mem_cons, List.not_mem_nil, or_false,
        Event.probe.injEq, Settings.maxTimeoutEffective] at hm
      simpa using hm

lemma probesVerbatim_syncdb (v : String) (sm cm : List PyModel)
    (s : Settings) (oracle : PyModel → ModelOutcome) :
    probesVerbatim s (es_syncdb_callback v sm cm s oracle).1 := by
  unfold es_syncdb_callback
  rcases (v.toList.get? 2).bind pyIntOfDigitChar with _ | d
  · intro u t hm
    cases hm
  · exact probesVerbatim_syncdbLoop s oracle _

/-- Claim C7: every probe event any of the three callbacks emits carries
exactly `settings.ELASTICSEARCH_URL` as the URL and exactly the
`getattr`-with-`None`-default value of `settings.ELASTICSEARCH_MAX_TIMEOUT`
as the timeout, for every sender, outcome, version and model list. -/
theorem C7_probe_uses_settings_verbatim (s : Settings) :
    (∀ (b : Bool) (p r : Option PyExc) (u : String) (t : Option Nat),
      Event.probe u t ∈ (es_save_callback b s p r).1 →
      u = s.elasticsearch_url ∧ t = s.elasticsearch_max_timeout) ∧
    (∀ (b : Bool) (p r : Option PyExc) (u : String) (t : Option Nat),
      Event.probe u t ∈ (es_delete_callback b s p r).1 →
      u = s.elasticsearch_url ∧ t = s.elasticsearch_max_timeout) ∧
    (∀ (v : String) (sm cm : List PyModel) (oracle : PyModel → ModelOutcome)
       (u : String) (t : Option Nat),
      Event.probe u t ∈ (es_syncdb_callback v sm cm s oracle).1 →
      u = s.elasticsearch_url ∧ t = s.elasticsearch_max_timeout) ∧
    (s.elasticsearch_max_timeout = none → s.maxTimeoutEffective = none) := by
  refine ⟨?_, ?_, ?_, ?_⟩
  · intro b p r u t hm
    exact probesVerbatim_save b s p r u t hm
  · intro b p r u t hm
    exact probesVerbatim_deleteCb b s p r u t hm
  · intro v sm cm oracle u t hm
    exact probesVerbatim_syncdb v sm cm s oracle u t hm
  · intro h
    simpa [Settings.maxTimeoutEffective] using h

/-- Witness for C7: at a concrete setting, the probe observed in a real
trace of `es_save_callback` carries that URL and timeout. -/
theorem C7_witness :
    Event.probe "http://localhost:9200" (some 5) ∈
      (es_save_callback true ⟨"http://localhost:9200", some 5, none⟩
        none none).1 ∧
    "http://localhost:9200" =
      (Settings.mk "http://localhost:9200" (some 5) none).elasticsearch_url ∧
    some 5 =
      (Settings.mk "http://localhost:9200" (some 5) none).elasticsearch_max_timeout := by
  have hm : Event.probe "http://localhost:9200" (some 5) ∈
      (es_save_callback true ⟨"http://localhost:9200", some 5, none⟩
        none none).1 := by decide
  exact ⟨hm,
    (C7_probe_uses_settings_verbatim
      ⟨"http://localhost:9200", some 5, none⟩).1 true none none _ _ hm⟩

/-- Claim C9: when `_is_es_deserialized` is truthy, `EsIndexable.save`
and `EsIndexable.delete` raise `ValueError` and the database operation is
not performed (empty trace); when it is falsy or absent, they delegate to
the parent `Model` implementation. -/
theorem C9_es_deserialized_blocks_db_operations (d : Option Bool) :
    (d.getD false = true →
      EsIndexable_save d = ([], Except.error PyExc.valueError) ∧
      EsIndexable_delete d = ([], Except.error PyExc.valueError)) ∧
    (d.getD false = false →
      EsIndexable_save d = ([Event.dbSave], Except.ok ()) ∧
      EsIndexable_delete d = ([Event.dbDelete], Except.ok ())) := by
  constructor
  · intro h
    constructor <;>
      simp [EsIndexable_save, EsIndexable_delete, raise_no_db_operation, h]
  · intro h
    constructor <;>
      simp [EsIndexable_save, EsIndexable_delete, raise_no_db_operation, h]

/-- Witness for C9: a deserialized instance raises on save; an instance
without the attribute delegates its delete to the parent. -/
theorem C9_witness :
    EsIndexable_save (some true) = ([], Except.error PyExc.valueError) ∧
    EsIndexable_delete none = ([Event.dbDelete], Except.ok ()) :=
  ⟨((C9_es_deserialized_blocks_db_operations (some true)).1 rfl).1,
   ((C9_es_deserialized_blocks_db_operations none).2 rfl).2⟩

/-- Claim C10: `es_syncdb_callback` branches on nothing of the version
string but the single character at index 2: equal index-2 characters give
identical behaviour; a digit greater than 6 there selects
`sender.get_models()`, otherwise `created_models` is processed; in
particular version string `1.10` has the digit `1` at index 2 and selects
the `created_models` branch. -/
theorem C10_version_branch_on_char_at_index_2 :
    (∀ (v w : String) (sm cm : List PyModel) (s : Settings)
       (oracle : PyModel → ModelOutcome),
      v.toList.get? 2 = w.toList.get? 2 →
      es_syncdb_callback v sm cm s oracle =
        es_syncdb_callback w sm cm s oracle) ∧
    ("1.10".toList.get? 2 = some (Char.ofNat 49) ∧
      ∀ (sm cm : List PyModel) (s : Settings)
        (oracle : PyModel → ModelOutcome),
        es_syncdb_callback "1.10" sm cm s oracle = syncdbLoop s oracle cm) ∧
    (∀ (v : String) (c : Char) (d : Nat) (sm cm : List PyModel) (s : Settings)
       (oracle : PyModel → ModelOutcome),
      v.toList.get? 2 = some c → pyIntOfDigitChar c = some d →
      ((6 < d → es_syncdb_callback v sm cm s oracle = syncdbLoop s oracle sm) ∧
       (d ≤ 6 →
         es_syncdb_callback v sm cm s oracle = syncdbLoop s oracle cm))) := by
  refine ⟨?_, ⟨by decide, ?_⟩, ?_⟩
  · intro v w sm cm s oracle h
    unfold es_syncdb_callback
    rw [h]
  · intro sm cm s oracle
    have h : (("1.10".toList.get? 2).bind pyIntOfDigitChar) = some 1 := by
      decide
    unfold es_syncdb_callback
    rw [h]
    rfl
  · intro v c d sm cm s oracle hc hd
    have h : ((v.toList.get? 2).bind pyIntOfDigitChar) = some d := by
      rw [hc]
      simpa using hd
    constructor
    · intro h6
      unfold es_syncdb_callback
      rw [h]
      simp [h6]
    · intro h6
      unfold es_syncdb_callback
      rw [h]
      simp [Nat.not_lt.mpr h6]

/-- Witness for C10 at concrete versions and model lists: `1.10` and
`1.19` agree at index 2 and behave identically, and version `1.7`
(digit 7 at index 2) selects the `sender.get_models()` branch. -/
theorem C10_witness :
    (es_syncdb_callback "1.10" [PyModel.mk "a" true] [PyModel.mk "b" true]
        ⟨"http://localhost:9200", none, none⟩ (fun _ => ⟨none, none, none⟩) =
      es_syncdb_callback "1.19" [PyModel.mk "a" true] [PyModel.mk "b" true]
        ⟨"http://localhost:9200", none, none⟩
        (fun _ => ⟨none, none, none⟩)) ∧
    (es_syncdb_callback "1.7" [PyModel.mk "a" true] [PyModel.mk "b" true]
        ⟨"http://localhost:9200", none, none⟩ (fun _ => ⟨none, none, none⟩) =
      syncdbLoop ⟨"http://localhost:9200", none, none⟩
        (fun _ => ⟨none, none, none⟩) [PyModel.mk "a" true]) :=
  ⟨C10_version_branch_on_char_at_index_2.1 "1.10" "1.19"
     [PyModel.mk "a" true] [PyModel.mk "b" true]
     ⟨"http://localhost:9200", none, none⟩ (fun _ => ⟨none, none, none⟩)
     (by decide),
   (C10_version_branch_on_char_at_index_2.2.2 "1.7" (Char.ofNat 55) 7
     [PyModel.mk "a" true] [PyModel.mk "b" true]
     ⟨"http://localhost:9200", none, none⟩ (fun _ => ⟨none, none, none⟩)
     (by decide) (by decide)).1 (by decide)⟩
